import Mathlib

/-!
Verification of `examples/podcast_assistant.py`: a shallow embedding of the
podcast-assistant session object and its command dispatcher, together with
theorems settling the specification's claims about routing, guards, startup
preconditions and session-state invariants.

Python strings are modelled as lists of characters (ASCII fragment: `lower`,
`strip` and `int` are modelled on their ASCII behaviour, which covers every
command prefix and message of the program).  The external agent runner
(`Runner.run`) is an oracle from the request text to the response text; all
observable effects (console prints, agent calls) are recorded as events.
-/

set_option maxRecDepth 2000

namespace Podcast

/-- A Python `str`, modelled as its list of characters. -/
abbrev Str := List Char

/-- The character list of a Lean string literal. -/
def str (s : String) : Str := s.data

/-- Python whitespace for `str.strip` (ASCII fragment). -/
def isPySpace (c : Char) : Bool :=
  c = ' ' || c = '\t' || c = '\n' || c = '\r' || c = '\x0b' || c = '\x0c'

/-- Python `s.strip()`: whitespace removed from both ends. -/
def pyStrip (s : Str) : Str :=
  ((s.dropWhile isPySpace).reverse.dropWhile isPySpace).reverse

/-- Python `s.lower()` (ASCII fragment). -/
def pyLower (s : Str) : Str := s.map Char.toLower

/-- Python `s.startswith(p)`. -/
def pyStartsWith (s p : Str) : Bool := p.isPrefixOf s

/-- The scan of `removeAll`, with fuel: each step consumes at least one
character, so `s.length` fuel always suffices and the out-of-fuel branch is
unreachable. -/
def removeAllFuel (old : Str) : Nat → Str → Str
  | _, [] => []
  | 0, s => s
  | fuel + 1, c :: cs =>
    if old.isPrefixOf (c :: cs) then removeAllFuel old fuel (List.drop (old.length - 1) cs)
    else c :: removeAllFuel old fuel cs

/-- Python `s.replace(old, "")` for a nonempty `old`: every occurrence of
`old` is removed, scanning left to right. -/
def removeAll (old : Str) (s : Str) : Str := removeAllFuel old s.length s

/-- The suffix of `s` after the first occurrence of `sep` (`none` when `sep`
does not occur; `sep` is nonempty wherever this is used). -/
def afterFirst (sep : Str) : Str → Option Str
  | [] => none
  | c :: cs =>
    if sep.isPrefixOf (c :: cs) then some (List.drop sep.length (c :: cs))
    else afterFirst sep cs

/-- The prefix of `s` before the first occurrence of `sep` (all of `s` when
`sep` does not occur). -/
def beforeFirst (sep : Str) : Str → Str
  | [] => []
  | c :: cs =>
    if sep.isPrefixOf (c :: cs) then [] else c :: beforeFirst sep cs

/-- Python `sep in s`. -/
def hasInfixB (sep s : Str) : Bool := (afterFirst sep s).isSome

/-- Python `s.split(sep)[1]`: the segment between the first occurrence of
`sep` and the next one (`none` when `sep` does not occur, in which case the
Python expression would raise `IndexError`). -/
def pySplitSecond (sep s : Str) : Option Str :=
  (afterFirst sep s).map (beforeFirst sep)

/-- The value of an ASCII digit. -/
def digitVal (c : Char) : Option Nat :=
  if '0' ≤ c ∧ c ≤ '9' then some (c.toNat - '0'.toNat) else none

/-- Digits of a Python integer literal after the first one: single
underscores are allowed between digits, not at the end. -/
def pyDigitsAux (acc : Nat) : Str → Option Nat
  | [] => some acc
  | '_' :: rest =>
    match rest with
    | [] => none
    | c :: cs =>
      match digitVal c with
      | some d => pyDigitsAux (acc * 10 + d) cs
      | none => none
  | c :: cs =>
    match digitVal c with
    | some d => pyDigitsAux (acc * 10 + d) cs
    | none => none

/-- A nonempty digit sequence (with underscores between digits). -/
def parseUnsignedInt : Str → Option Nat
  | [] => none
  | c :: cs =>
    match digitVal c with
    | some d => pyDigitsAux d cs
    | none => none

/-- Python `int(s)` on a string (ASCII fragment): surrounding whitespace,
optional sign, then digits with single underscores between them. -/
def pyInt (s : Str) : Option Int :=
  match pyStrip s with
  | '+' :: rest => (parseUnsignedInt rest).map Int.ofNat
  | '-' :: rest => (parseUnsignedInt rest).map (fun n => -(n : Int))
  | rest => (parseUnsignedInt rest).map Int.ofNat

/-- Python `str(n)` for an integer. -/
def pyIntStr (n : Int) : Str := (toString n).data

/-- Python truthiness of an optional string: `None` and `""` are falsy. -/
def truthy : Option Str → Bool
  | none => false
  | some s => !s.isEmpty

/-- An observable effect of the program: a console print, or a call of the
external agent runner (`Runner.run`) with the given input text. -/
inductive Event where
  | print (text : Str)
  | agentRun (input : Str)
deriving DecidableEq

/-- The session state of `PodcastAssistant`: its mutable fields, with the
agent object represented by its instructions string (the only part of the
agent this repository computes). -/
structure PodcastAssistant where
  feed_url : Option Str
  episodes : Option Str
  temp_dir : Option Str
  podcast_title : Option Str
  agent_instructions : Str
deriving DecidableEq

/-- `self.base_instructions` set in `PodcastAssistant.__init__`. -/
def base_instructions : Str := str (
  "\n            You are a helpful podcast assistant that can:" ++
  "\n            1. Fetch and browse podcast RSS feeds" ++
  "\n            2. Search for episodes by topic" ++
  "\n            3. Transcribe and summarize podcast episodes" ++
  "\n            " ++
  "\n            When asked to find episodes about a specific topic, search through episode titles " ++
  "\n            and descriptions to find relevant matches. Provide a numbered list of relevant episodes." ++
  "\n            " ++
  "\n            When asked to summarize an episode:" ++
  "\n            1. First find the episode in the feed to get its audio URL" ++
  "\n            2. Transcribe the episode directly using the transcribe_audio tool" ++
  "\n               - Use the episode's audio URL in the episode_url parameter" ++
  "\n               - Set full_transcription=true and max_chunk_size=20" ++
  "\n            3. Provide a detailed summary of the key points, insights, and takeaways" ++
  "\n            " ++
  "\n            Important: The transcribe_audio tool now handles downloading automatically, " ++
  "\n            so you don't need to download the episode separately. Just pass the episode's " ++
  "\n            audio URL directly to the transcribe_audio tool." ++
  "\n            " ++
  "\n            Always be conversational and helpful. Maintain context of the conversation." ++
  "\n            ")

/-- The instructions string built by `PodcastAssistant._create_agent`:
the base instructions, plus the feed context when `with_feed` is truthy,
plus the title sentence when `self.podcast_title` is truthy. -/
def create_agent_instructions (podcast_title : Option Str) (with_feed : Option Str) : Str :=
  if truthy with_feed then
    let instructions := base_instructions ++
      str "\n            \n            Current podcast RSS feed: " ++ with_feed.getD [] ++
      str "\n            Remember to use this feed URL for all operations unless explicitly told to use a different one.\n            "
    if truthy podcast_title then
      instructions ++ str "This is the '" ++ podcast_title.getD [] ++ str "' podcast."
    else instructions
  else base_instructions

/-- The state built by `PodcastAssistant.__init__` (every unset field is
`None`; the agent is created with no feed context). -/
def PodcastAssistant.mkInit : PodcastAssistant where
  feed_url := none
  episodes := none
  temp_dir := none
  podcast_title := none
  agent_instructions := create_agent_instructions none none

/-- The external agent runner: final output text as a function of the input
text (`Runner.run` is opaque to this repository). -/
abbrev Oracle := Str → Str

/-- `"Title:"`, the marker searched for during title extraction. -/
def titleMarker : Str := str "Title:"

/-- The title-extraction step of `_fetch_feed`: when some line of the
response contains `"Title:"`, the segment of the first such line between
that marker and the next occurrence of it, stripped. `none` means the
stored title is left unchanged. -/
def extractTitle (response : Str) : Option Str :=
  if hasInfixB titleMarker response then
    match (response.splitOn '\n').filter (fun line => hasInfixB titleMarker line) with
    | [] => none
    | line :: _ => (pySplitSecond titleMarker line).map pyStrip
  else none

/-- The effect of title extraction on the session state, with the
`"Podcast title: ..."` print it makes when it succeeds. -/
def applyTitle (s : PodcastAssistant) (response : Str) : PodcastAssistant × List Event :=
  match extractTitle response with
  | some t =>
    ({ s with podcast_title := some t }, [Event.print (str "Podcast title: " ++ t)])
  | none => (s, [])

/-- The `Runner.run` input composed by `_fetch_feed`. -/
def fetch_input (feed_url : Str) : Str :=
  str "Fetch the podcast RSS feed at " ++ feed_url ++
    str " and list the 10 most recent episodes. Format the list with numbers, titles and durations."

/-- `PodcastAssistant._fetch_feed`: print the fetching message, call the
agent, store the feed URL, best-effort extract the podcast title, rebuild
the agent with the new feed context, print the agent's output. -/
def fetch_feed (oracle : Oracle) (s : PodcastAssistant) (feed_url : Str) :
    PodcastAssistant × List Event :=
  let inp := fetch_input feed_url
  let response := oracle inp
  let s1 : PodcastAssistant := { s with feed_url := some feed_url }
  let s2 := (applyTitle s1 response).1
  let s3 : PodcastAssistant :=
    { s2 with agent_instructions := create_agent_instructions s2.podcast_title (some feed_url) }
  (s3, Event.print (str "Fetching RSS feed: " ++ feed_url) :: Event.agentRun inp ::
    ((applyTitle s1 response).2 ++ [Event.print response]))

/-- The message printed when an operation needs a feed and none is loaded. -/
def no_feed_message : Str :=
  str "No podcast feed loaded. Please provide an RSS feed URL first."

/-- The `Runner.run` input composed by `find_episodes_by_topic`. -/
def find_input (feed_url topic : Str) : Str :=
  str "Using the podcast feed " ++ feed_url ++ str ", find episodes that discuss " ++ topic ++
    str ". Provide a numbered list of relevant episodes with their titles and a brief description."

/-- `PodcastAssistant.find_episodes_by_topic`. -/
def find_episodes_by_topic (oracle : Oracle) (s : PodcastAssistant) (topic : Str) :
    PodcastAssistant × List Event :=
  if !truthy s.feed_url then (s, [Event.print no_feed_message])
  else
    let inp := find_input (s.feed_url.getD []) topic
    (s, [Event.print (str "Searching for episodes about: " ++ topic),
         Event.agentRun inp, Event.print (oracle inp)])

/-- The `Runner.run` input composed by `summarize_episode`. -/
def summarize_input (episode_number : Int) (feed_url : Str) : Str :=
  str "\n            For episode " ++ pyIntStr episode_number ++
    str " from the podcast feed " ++ feed_url ++ str ":" ++
    str "\n            1. First, find the episode in the feed to get its audio URL" ++
    str "\n            2. Transcribe the episode using the transcribe_audio tool" ++
    str "\n               - Pass the episode's audio URL directly to the tool (episode_url parameter)" ++
    str "\n               - Use full_transcription=true and max_chunk_size=20" ++
    str "\n            3. Provide a comprehensive summary of the episode content" ++
    str "\n            "

/-- `PodcastAssistant.summarize_episode`. -/
def summarize_episode (oracle : Oracle) (s : PodcastAssistant) (episode_number : Int) :
    PodcastAssistant × List Event :=
  if !truthy s.feed_url then (s, [Event.print no_feed_message])
  else
    let inp := summarize_input episode_number (s.feed_url.getD [])
    (s, [Event.print (str "Summarizing episode " ++ pyIntStr episode_number ++ str "..."),
         Event.agentRun inp,
         Event.print (str "\nEpisode Summary:\n"), Event.print (oracle inp)])

/-- Topic extraction in the which-episode branch of `process_command`:
every occurrence of the two phrases is removed from the lowercased command,
the result is stripped, and a leading `"is about "` and then a leading
`"about "` are dropped (stripping again after each). -/
def which_topic (command : Str) : Str :=
  let topic := pyStrip (removeAll (str "which eposide")
    (removeAll (str "which episode") (pyLower command)))
  let topic := if pyStartsWith topic (str "is about ") then pyStrip (topic.drop 9) else topic
  let topic := if pyStartsWith topic (str "about ") then pyStrip (topic.drop 6) else topic
  topic

/-- The prints of the help branch of `process_command`. -/
def help_events (s : PodcastAssistant) : List Event :=
  [Event.print (str "\nCommands:"),
   Event.print (str "  feed [URL]      - Set the podcast RSS feed URL"),
   Event.print (str "  find [topic]    - Find episodes about a specific topic"),
   Event.print (str "  summarize [N]   - Summarize episode number N"),
   Event.print (str "  exit            - Exit the assistant"),
   Event.print (str "  help            - Show this help message")] ++
  (if truthy s.feed_url then
    Event.print (str "\nCurrent podcast feed: " ++ s.feed_url.getD []) ::
      (if truthy s.podcast_title then
        [Event.print (str "Podcast title: " ++ s.podcast_title.getD [])]
       else [])
   else [])

/-- `PodcastAssistant.process_command`: the new state, the events emitted,
and the keep-running flag returned to the command loop. -/
def process_command (oracle : Oracle) (s : PodcastAssistant) (command : Str) :
    PodcastAssistant × List Event × Bool :=
  if pyStartsWith (pyLower command) (str "feed ") then
    let r := fetch_feed oracle s (pyStrip (command.drop 5))
    (r.1, r.2, true)
  else if pyStartsWith (pyLower command) (str "find ") then
    let r := find_episodes_by_topic oracle s (pyStrip (command.drop 5))
    (r.1, r.2, true)
  else if pyStartsWith (pyLower command) (str "summarize ") then
    match pyInt (pyStrip (command.drop 10)) with
    | some episode_number =>
      let r := summarize_episode oracle s episode_number
      (r.1, r.2, true)
    | none =>
      (s, [Event.print (str "Please specify a valid episode number to summarize.")], true)
  else if pyLower command = str "help" then
    (s, help_events s, true)
  else if pyLower command = str "exit" then
    (s, [], false)
  else if pyStartsWith (pyLower command) (str "which episode") ||
      pyStartsWith (pyLower command) (str "which eposide") then
    if !(which_topic command).isEmpty then
      let r := find_episodes_by_topic oracle s (which_topic command)
      (r.1, r.2, true)
    else (s, [Event.print (str "Please specify a topic to search for.")], true)
  else
    let context :=
      if truthy s.feed_url then
        str "Using the podcast feed " ++ s.feed_url.getD [] ++ str ": "
      else []
    (s, [Event.agentRun (context ++ command), Event.print (oracle (context ++ command))], true)

/-- `PodcastAssistant.start`: fetch the initial feed when one is given. -/
def start (oracle : Oracle) (s : PodcastAssistant) (feed_url : Option Str) :
    PodcastAssistant × List Event :=
  if truthy feed_url then
    fetch_feed oracle { s with feed_url := feed_url } (feed_url.getD [])
  else (s, [])

/-- `PodcastAssistant.cleanup`: the temp-dir branch would call the undefined
method `_cleanup_temp_dir`, modelled as an error; otherwise a no-op. -/
def cleanup (s : PodcastAssistant) : Except Str Unit :=
  if truthy s.temp_dir then Except.error (str "AttributeError: _cleanup_temp_dir")
  else Except.ok ()

/-- The while-loop of `interactive_mode` over a list of input lines: runs
`process_command` on each line until one returns the stop flag. -/
def runCommands (oracle : Oracle) (s : PodcastAssistant) :
    List Str → PodcastAssistant × List Event
  | [] => (s, [])
  | c :: cs =>
    let r := process_command oracle s c
    if r.2.2 then
      let rest := runCommands oracle r.1 cs
      (rest.1, r.2.1 ++ rest.2)
    else (r.1, r.2.1)

/-- `interactive_mode`: banner, optional initial feed fetch, command loop. -/
def interactive_mode (oracle : Oracle) (initial_feed : Option Str) (commands : List Str) :
    PodcastAssistant × List Event :=
  let st := start oracle PodcastAssistant.mkInit initial_feed
  let fin := runCommands oracle st.1 commands
  (fin.1,
   Event.print (str "\n===== Podcast Assistant =====") ::
   Event.print (str "Type 'help' for available commands or 'exit' to quit") ::
   (st.2 ++ fin.2))

/-- The error message of the missing-Node startup check. -/
def node_missing_message : Str :=
  str "Node.js is not installed. Please install Node.js to run this script."

/-- The error message of the missing-credential startup check. -/
def key_missing_message : Str :=
  str ("OPENAI_API_KEY environment variable is not set. " ++
    "Please set it to your OpenAI API key.")

/-- The `__main__` guard: Node.js availability and `OPENAI_API_KEY`
presence are checked, in that order, before `main` runs the interactive
session; either check failing raises before any command is processed. -/
def mainStartup (nodeAvailable : Bool) (apiKey : Option Str) (oracle : Oracle)
    (rss_feed : Str) (commands : List Str) :
    Except Str (PodcastAssistant × List Event) :=
  if !nodeAvailable then Except.error node_missing_message
  else if !truthy apiKey then Except.error key_missing_message
  else Except.ok (interactive_mode oracle (some rss_feed) commands)

/-- Session states reachable through the repository's operations:
construction, `start`, and any sequence of processed commands. -/
inductive Reachable : PodcastAssistant → Prop
  | mkInit : Reachable PodcastAssistant.mkInit
  | fromStart (oracle : Oracle) (s : PodcastAssistant) (f : Option Str) :
      Reachable s → Reachable (start oracle s f).1
  | fromStep (oracle : Oracle) (s : PodcastAssistant) (c : Str) :
      Reachable s → Reachable (process_command oracle s c).1

/-- A sample agent runner whose final output is always empty. -/
def oracle0 : Oracle := fun _ => []

/-- A sample agent runner that always answers with a title line. -/
def oracleTitle : Oracle := fun _ => str "Title: XYZQ"

/-- A sample agent runner whose answer contains the title marker twice on
one line. -/
def oracleTwoTitles : Oracle := fun _ => str "Title: A Title: B"

/-- A sample session state with a feed URL loaded. -/
def sample_state_with_feed : PodcastAssistant :=
  { PodcastAssistant.mkInit with feed_url := some (str "http://u") }

/-! ### Helper lemmas -/

theorem pyStartsWith_exists {s p : Str} (h : pyStartsWith s p = true) :
    ∃ t, s = p ++ t := by
  unfold pyStartsWith at h
  obtain ⟨t, ht⟩ := List.isPrefixOf_iff_prefix.mp h
  exact ⟨t, ht.symm⟩

theorem find_not_feed {c : Str} (h : pyStartsWith (pyLower c) (str "find ") = true) :
    pyStartsWith (pyLower c) (str "feed ") = false := by
  obtain ⟨t, ht⟩ := pyStartsWith_exists h
  rw [ht]; rfl

theorem summarize_not_feed {c : Str}
    (h : pyStartsWith (pyLower c) (str "summarize ") = true) :
    pyStartsWith (pyLower c) (str "feed ") = false := by
  obtain ⟨t, ht⟩ := pyStartsWith_exists h
  rw [ht]; rfl

theorem summarize_not_find {c : Str}
    (h : pyStartsWith (pyLower c) (str "summarize ") = true) :
    pyStartsWith (pyLower c) (str "find ") = false := by
  obtain ⟨t, ht⟩ := pyStartsWith_exists h
  rw [ht]; rfl

theorem applyTitle_feed_url (s : PodcastAssistant) (r : Str) :
    (applyTitle s r).1.feed_url = s.feed_url := by
  unfold applyTitle; cases extractTitle r <;> rfl

theorem applyTitle_temp_dir (s : PodcastAssistant) (r : Str) :
    (applyTitle s r).1.temp_dir = s.temp_dir := by
  unfold applyTitle; cases extractTitle r <;> rfl

theorem fetch_feed_feed_url (o : Oracle) (s : PodcastAssistant) (u : Str) :
    (fetch_feed o s u).1.feed_url = some u := by
  unfold fetch_feed
  simp [applyTitle_feed_url]

theorem fetch_feed_temp_dir (o : Oracle) (s : PodcastAssistant) (u : Str) :
    (fetch_feed o s u).1.temp_dir = s.temp_dir := by
  unfold fetch_feed
  simp [applyTitle_temp_dir]

theorem fetch_feed_instructions (o : Oracle) (s : PodcastAssistant) (u : Str) :
    (fetch_feed o s u).1.agent_instructions =
      create_agent_instructions (fetch_feed o s u).1.podcast_title (some u) := by
  unfold fetch_feed
  simp

theorem find_fst (o : Oracle) (s : PodcastAssistant) (t : Str) :
    (find_episodes_by_topic o s t).1 = s := by
  unfold find_episodes_by_topic; split <;> rfl

theorem summarize_fst (o : Oracle) (s : PodcastAssistant) (n : Int) :
    (summarize_episode o s n).1 = s := by
  unfold summarize_episode; split <;> rfl

theorem process_command_fst (o : Oracle) (s : PodcastAssistant) (c : Str) :
    (process_command o s c).1 =
      if pyStartsWith (pyLower c) (str "feed ") then
        (fetch_feed o s (pyStrip (c.drop 5))).1
      else s := by
  by_cases h : pyStartsWith (pyLower c) (str "feed ") = true
  · simp only [process_command, h, if_true]
  · simp only [process_command, h, if_false, Bool.false_eq_true]
    split
    · exact find_fst o s _
    · split
      · split
        · exact summarize_fst o s _
        · rfl
      · split
        · rfl
        · split
          · rfl
          · split
            · split
              · exact find_fst o s _
              · rfl
            · rfl

theorem start_fst (o : Oracle) (s : PodcastAssistant) (f : Option Str) :
    (start o s f).1 =
      if truthy f then (fetch_feed o { s with feed_url := f } (f.getD [])).1
      else s := by
  unfold start; split <;> rfl

theorem create_agent_contains_feed (t : Option Str) (u : Str) :
    ∃ a b, create_agent_instructions t (some u) = a ++ u ++ b := by
  by_cases h : u.isEmpty
  · have hu : u = [] := by
      cases u with
      | nil => rfl
      | cons c cs => simp [List.isEmpty] at h
    subst hu
    exact ⟨[], create_agent_instructions t (some []), by simp⟩
  · have h' : u.isEmpty = false := by
      cases hh : u.isEmpty
      · rfl
      · exact absurd hh h
    unfold create_agent_instructions
    simp only [truthy, h', Bool.not_false, if_true, Option.getD_some]
    split
    · exact ⟨base_instructions ++ str "\n            \n            Current podcast RSS feed: ",
        str "\n            Remember to use this feed URL for all operations unless explicitly told to use a different one.\n            " ++
          str "This is the '" ++ t.getD [] ++ str "' podcast.",
        by simp [List.append_assoc]⟩
    · exact ⟨base_instructions ++ str "\n            \n            Current podcast RSS feed: ",
        str "\n            Remember to use this feed URL for all operations unless explicitly told to use a different one.\n            ",
        by simp [List.append_assoc]⟩

theorem create_agent_contains_title (t u : Str) (ht : t.isEmpty = false)
    (hu : u.isEmpty = false) :
    ∃ a b, create_agent_instructions (some t) (some u) = a ++ t ++ b := by
  unfold create_agent_instructions
  simp only [truthy, ht, hu, Bool.not_false, if_true, Option.getD_some]
  exact ⟨base_instructions ++ str "\n            \n            Current podcast RSS feed: " ++ u ++
      str "\n            Remember to use this feed URL for all operations unless explicitly told to use a different one.\n            " ++
      str "This is the '",
    str "' podcast.",
    by simp [List.append_assoc]⟩

theorem fetch_feed_good (o : Oracle) (s : PodcastAssistant) (u : Str) :
    ∀ v, (fetch_feed o s u).1.feed_url = some v →
      ∃ a b, (fetch_feed o s u).1.agent_instructions = a ++ v ++ b := by
  intro v hv
  rw [fetch_feed_feed_url] at hv
  injection hv with hv
  subst hv
  rw [fetch_feed_instructions]
  exact create_agent_contains_feed _ _

theorem reachable_props :
    ∀ s, Reachable s → s.temp_dir = none ∧
      (∀ u, s.feed_url = some u → ∃ a b, s.agent_instructions = a ++ u ++ b) := by
  intro s h
  induction h with
  | mkInit =>
    refine ⟨rfl, ?_⟩
    intro u hu
    exact absurd hu (by simp [PodcastAssistant.mkInit])
  | fromStart o s f _ ih =>
    rw [start_fst]
    split
    · refine ⟨?_, fetch_feed_good o _ _⟩
      rw [fetch_feed_temp_dir]
      exact ih.1
    · exact ih
  | fromStep o s c _ ih =>
    rw [process_command_fst]
    split
    · refine ⟨?_, fetch_feed_good o _ _⟩
      rw [fetch_feed_temp_dir]
      exact ih.1
    · exact ih

theorem append_ne_of_head_ne {l m t : Str} (h : l.head? ≠ m.head?) (hl : l ≠ []) :
    l ++ t ≠ m := by
  intro he
  apply h
  rw [← he]
  cases l with
  | nil => exact absurd rfl hl
  | cons c cs => rfl

theorem which_episode_conditions {c : Str}
    (h : pyStartsWith (pyLower c) (str "which episode") = true ∨
         pyStartsWith (pyLower c) (str "which eposide") = true) :
    pyStartsWith (pyLower c) (str "feed ") = false ∧
    pyStartsWith (pyLower c) (str "find ") = false ∧
    pyStartsWith (pyLower c) (str "summarize ") = false ∧
    pyLower c ≠ str "help" ∧ pyLower c ≠ str "exit" := by
  obtain h | h := h <;> obtain ⟨t, ht⟩ := pyStartsWith_exists h <;> rw [ht] <;>
    exact ⟨rfl, rfl, rfl, append_ne_of_head_ne (by decide) (by decide),
      append_ne_of_head_ne (by decide) (by decide)⟩

theorem process_command_summarize (o : Oracle) (s : PodcastAssistant) (c : Str)
    (h : pyStartsWith (pyLower c) (str "summarize ") = true) :
    process_command o s c =
      match pyInt (pyStrip (c.drop 10)) with
      | some n => ((summarize_episode o s n).1, (summarize_episode o s n).2, true)
      | none =>
        (s, [Event.print (str "Please specify a valid episode number to summarize.")], true) := by
  have hfeed := summarize_not_feed h
  have hfind := summarize_not_find h
  simp only [process_command, hfeed, hfind, h, if_true, if_false, Bool.false_eq_true]

theorem hasInfixB_append (u a b : Str) (hu : u ≠ []) :
    hasInfixB u (a ++ u ++ b) = true := by
  induction a with
  | nil =>
    cases u with
    | nil => exact absurd rfl hu
    | cons c cs =>
      have hpre : (c :: cs).isPrefixOf (c :: (cs ++ b)) = true :=
        List.isPrefixOf_iff_prefix.mpr ⟨b, by simp⟩
      simp [hasInfixB, afterFirst, hpre]
  | cons x xs ih =>
    simp only [hasInfixB] at ih ⊢
    rw [List.cons_append, List.cons_append]
    simp only [afterFirst]
    split
    · rfl
    · exact ih

/-! ### Claims -/

/-- C1: every input line beginning (case-insensitively) with `"feed "`
routes to the feed-fetch path with the URL equal to the rest of the line
after the prefix, stripped of surrounding whitespace; in particular for
`"feed https://x/rss"` that URL is `"https://x/rss"`. -/
theorem claim_C1_feed_routing :
    (∀ (o : Oracle) (s : PodcastAssistant) (c : Str),
      pyStartsWith (pyLower c) (str "feed ") = true →
      process_command o s c =
        ((fetch_feed o s (pyStrip (c.drop 5))).1,
         (fetch_feed o s (pyStrip (c.drop 5))).2, true)) ∧
    pyStrip ((str "feed https://x/rss").drop 5) = str "https://x/rss" := by
  refine ⟨?_, by decide⟩
  intro o s c h
  simp only [process_command, h, if_true]

theorem claim_C1_feed_routing_witness :
    process_command oracle0 PodcastAssistant.mkInit (str "FEED https://x/rss") =
      ((fetch_feed oracle0 PodcastAssistant.mkInit (str "https://x/rss")).1,
       (fetch_feed oracle0 PodcastAssistant.mkInit (str "https://x/rss")).2, true) := by
  have h := claim_C1_feed_routing.1 oracle0 PodcastAssistant.mkInit
    (str "FEED https://x/rss") (by decide)
  have e : pyStrip ((str "FEED https://x/rss").drop 5) = str "https://x/rss" := by decide
  rw [e] at h
  exact h

/-- C2: every input line beginning (case-insensitively) with `"find "`
routes to the topic-search path with the stripped remainder as topic; the
search performs the agent call only when a (truthy) feed URL is set, and
otherwise prints the no-feed message and makes no agent call. -/
theorem claim_C2_find_routing :
    ∀ (o : Oracle) (s : PodcastAssistant) (c : Str),
      pyStartsWith (pyLower c) (str "find ") = true →
      (process_command o s c =
        ((find_episodes_by_topic o s (pyStrip (c.drop 5))).1,
         (find_episodes_by_topic o s (pyStrip (c.drop 5))).2, true)) ∧
      (∀ u, s.feed_url = some u → u.isEmpty = false →
        find_episodes_by_topic o s (pyStrip (c.drop 5)) =
          (s, [Event.print (str "Searching for episodes about: " ++ pyStrip (c.drop 5)),
               Event.agentRun (find_input u (pyStrip (c.drop 5))),
               Event.print (o (find_input u (pyStrip (c.drop 5))))])) ∧
      (truthy s.feed_url = false →
        find_episodes_by_topic o s (pyStrip (c.drop 5)) =
          (s, [Event.print no_feed_message])) := by
  intro o s c h
  have hfeed := find_not_feed h
  refine ⟨?_, ?_, ?_⟩
  · simp only [process_command, hfeed, h, if_true, if_false, Bool.false_eq_true]
  · intro u hu hne
    unfold find_episodes_by_topic
    rw [hu]
    simp [truthy, hne]
  · intro hf
    unfold find_episodes_by_topic
    simp [hf]

theorem claim_C2_find_routing_witness :
    process_command oracle0 sample_state_with_feed (str "find sports") =
      (sample_state_with_feed,
       [Event.print (str "Searching for episodes about: sports"),
        Event.agentRun (find_input (str "http://u") (str "sports")),
        Event.print (oracle0 (find_input (str "http://u") (str "sports")))], true) ∧
    process_command oracle0 PodcastAssistant.mkInit (str "find sports") =
      (PodcastAssistant.mkInit, [Event.print no_feed_message], true) := by
  constructor
  · have h := claim_C2_find_routing oracle0 sample_state_with_feed (str "find sports") (by decide)
    have e : pyStrip ((str "find sports").drop 5) = str "sports" := by decide
    rw [e] at h
    rw [h.1, h.2.1 (str "http://u") rfl (by decide)]
    rfl
  · have h := claim_C2_find_routing oracle0 PodcastAssistant.mkInit (str "find sports") (by decide)
    rw [h.1, h.2.2 rfl]

/-- C3: every input line beginning (case-insensitively) with `"summarize "`
has its stripped remainder parsed as an integer; on success the command
routes to summarization of that episode number, on failure the
invalid-number message is printed, no agent call is made and the state is
unchanged.  `"3"` parses to 3 and `"abc"` fails to parse. -/
theorem claim_C3_summarize_routing :
    (∀ (o : Oracle) (s : PodcastAssistant) (c : Str),
      pyStartsWith (pyLower c) (str "summarize ") = true →
      (∀ n, pyInt (pyStrip (c.drop 10)) = some n →
        process_command o s c =
          ((summarize_episode o s n).1, (summarize_episode o s n).2, true)) ∧
      (pyInt (pyStrip (c.drop 10)) = none →
        process_command o s c =
          (s, [Event.print (str "Please specify a valid episode number to summarize.")],
           true))) ∧
    pyInt (pyStrip ((str "summarize 3").drop 10)) = some 3 ∧
    pyInt (pyStrip ((str "summarize abc").drop 10)) = none := by
  refine ⟨?_, by decide, by decide⟩
  intro o s c h
  rw [process_command_summarize o s c h]
  constructor
  · intro n hn
    rw [hn]
  · intro hn
    rw [hn]

theorem claim_C3_summarize_routing_witness :
    process_command oracle0 sample_state_with_feed (str "summarize 3") =
      ((summarize_episode oracle0 sample_state_with_feed 3).1,
       (summarize_episode oracle0 sample_state_with_feed 3).2, true) ∧
    process_command oracle0 sample_state_with_feed (str "summarize abc") =
      (sample_state_with_feed,
       [Event.print (str "Please specify a valid episode number to summarize.")], true) := by
  constructor
  · exact (claim_C3_summarize_routing.1 oracle0 sample_state_with_feed
      (str "summarize 3") (by decide)).1 3 (by decide)
  · exact (claim_C3_summarize_routing.1 oracle0 sample_state_with_feed
      (str "summarize abc") (by decide)).2 (by decide)

/-- C9: a `summarize N` command with a valid integer N, issued while no
(truthy) feed URL is set, prints the no-feed message and makes no agent
call, exactly as `find` does. -/
theorem claim_C9_summarize_no_feed :
    ∀ (o : Oracle) (s : PodcastAssistant) (c : Str) (n : Int),
      pyStartsWith (pyLower c) (str "summarize ") = true →
      pyInt (pyStrip (c.drop 10)) = some n →
      truthy s.feed_url = false →
      process_command o s c = (s, [Event.print no_feed_message], true) := by
  intro o s c n h hn hf
  rw [process_command_summarize o s c h, hn]
  unfold summarize_episode
  simp [hf]

theorem claim_C9_summarize_no_feed_witness :
    process_command oracle0 PodcastAssistant.mkInit (str "summarize 3") =
      (PodcastAssistant.mkInit, [Event.print no_feed_message], true) :=
  claim_C9_summarize_no_feed oracle0 PodcastAssistant.mkInit (str "summarize 3") 3
    (by decide) (by decide) rfl

/-- C5: an input equal (case-insensitively) to `"exit"` makes
`process_command` return the stop flag and the command loop stops without
processing further lines; an input matching none of the command shapes is
forwarded verbatim to the agent runner, prefixed with the feed context
string exactly when a (truthy) feed URL is set. -/
theorem claim_C5_exit_and_general :
    (∀ (o : Oracle) (s : PodcastAssistant) (c : Str),
      pyLower c = str "exit" → process_command o s c = (s, [], false)) ∧
    (∀ (o : Oracle) (s : PodcastAssistant) (c : Str) (cs : List Str),
      pyLower c = str "exit" → runCommands o s (c :: cs) = (s, [])) ∧
    (∀ (o : Oracle) (s : PodcastAssistant) (c : Str),
      pyStartsWith (pyLower c) (str "feed ") = false →
      pyStartsWith (pyLower c) (str "find ") = false →
      pyStartsWith (pyLower c) (str "summarize ") = false →
      pyLower c ≠ str "help" →
      pyLower c ≠ str "exit" →
      pyStartsWith (pyLower c) (str "which episode") = false →
      pyStartsWith (pyLower c) (str "which eposide") = false →
      (truthy s.feed_url = true → ∀ u, s.feed_url = some u →
        process_command o s c =
          (s, [Event.agentRun (str "Using the podcast feed " ++ u ++ str ": " ++ c),
               Event.print (o (str "Using the podcast feed " ++ u ++ str ": " ++ c))],
           true)) ∧
      (truthy s.feed_url = false →
        process_command o s c = (s, [Event.agentRun c, Event.print (o c)], true))) := by
  have hexit : ∀ (o : Oracle) (s : PodcastAssistant) (c : Str),
      pyLower c = str "exit" → process_command o s c = (s, [], false) := by
    intro o s c h
    have e1 : pyStartsWith (str "exit") (str "feed ") = false := by decide
    have e2 : pyStartsWith (str "exit") (str "find ") = false := by decide
    have e3 : pyStartsWith (str "exit") (str "summarize ") = false := by decide
    have e4 : ¬(str "exit" = str "help") := by decide
    simp [process_command, h, e1, e2, e3, e4]
  refine ⟨hexit, ?_, ?_⟩
  · intro o s c cs h
    have hp := hexit o s c h
    simp [runCommands, hp]
  · intro o s c h1 h2 h3 h4 h5 h6 h7
    constructor
    · intro htr u hu
      rw [hu] at htr
      simp only [process_command, h1, h2, h3, h6, h7, Bool.false_eq_true, if_false,
        Bool.or_self, if_neg h4, if_neg h5, hu, htr, if_true, Option.getD_some]
    · intro htr
      simp only [process_command, h1, h2, h3, h6, h7, Bool.false_eq_true, if_false,
        Bool.or_self, if_neg h4, if_neg h5, htr, List.nil_append]

theorem claim_C5_exit_and_general_witness :
    process_command oracle0 PodcastAssistant.mkInit (str "Exit") =
      (PodcastAssistant.mkInit, [], false) ∧
    runCommands oracle0 PodcastAssistant.mkInit [str "exit", str "find x"] =
      (PodcastAssistant.mkInit, []) ∧
    process_command oracle0 sample_state_with_feed (str "what is new") =
      (sample_state_with_feed,
       [Event.agentRun (str "Using the podcast feed " ++ str "http://u" ++ str ": " ++
          str "what is new"),
        Event.print (oracle0 (str "Using the podcast feed " ++ str "http://u" ++ str ": " ++
          str "what is new"))], true) ∧
    process_command oracle0 PodcastAssistant.mkInit (str "what is new") =
      (PodcastAssistant.mkInit,
       [Event.agentRun (str "what is new"), Event.print (oracle0 (str "what is new"))],
       true) := by
  refine ⟨claim_C5_exit_and_general.1 oracle0 PodcastAssistant.mkInit (str "Exit") (by decide),
    claim_C5_exit_and_general.2.1 oracle0 PodcastAssistant.mkInit (str "exit") [str "find x"]
      (by decide), ?_, ?_⟩
  · exact (claim_C5_exit_and_general.2.2 oracle0 sample_state_with_feed (str "what is new")
      (by decide) (by decide) (by decide) (by decide) (by decide) (by decide) (by decide)).1
      rfl (str "http://u") rfl
  · exact (claim_C5_exit_and_general.2.2 oracle0 PodcastAssistant.mkInit (str "what is new")
      (by decide) (by decide) (by decide) (by decide) (by decide) (by decide) (by decide)).2
      rfl

/-- C6: if Node.js is not available, or the OPENAI_API_KEY environment
variable is absent (more generally, falsy), the program errors out at
startup, before the interactive loop and before any command is processed;
an absent key is falsy. -/
theorem claim_C6_startup_checks :
    ∀ (node : Bool) (apiKey : Option Str) (o : Oracle) (feed : Str) (cmds : List Str),
      (node = false →
        mainStartup node apiKey o feed cmds = Except.error node_missing_message) ∧
      (node = true → truthy apiKey = false →
        mainStartup node apiKey o feed cmds = Except.error key_missing_message) ∧
      (apiKey = none → truthy apiKey = false) := by
  intro node apiKey o feed cmds
  refine ⟨?_, ?_, ?_⟩
  · intro h; subst h; rfl
  · intro h hk; subst h; simp [mainStartup, hk]
  · intro h; subst h; rfl

theorem claim_C6_startup_checks_witness :
    mainStartup false none oracle0 (str "https://x/rss") [] =
      Except.error node_missing_message ∧
    mainStartup true (some []) oracle0 (str "https://x/rss") [] =
      Except.error key_missing_message := by
  constructor
  · exact (claim_C6_startup_checks false none oracle0 (str "https://x/rss") []).1 rfl
  · exact (claim_C6_startup_checks true (some []) oracle0 (str "https://x/rss") []).2.1 rfl rfl

/-- C10: in every reachable session state `temp_dir` is still `None`, so
`cleanup` never takes its temp-dir branch (which would call the undefined
`_cleanup_temp_dir`) and is a no-op. -/
theorem claim_C10_cleanup_noop :
    ∀ s, Reachable s → s.temp_dir = none ∧ cleanup s = Except.ok () := by
  intro s h
  have ht := (reachable_props s h).1
  refine ⟨ht, ?_⟩
  unfold cleanup
  rw [ht]
  rfl

theorem claim_C10_cleanup_noop_witness :
    cleanup PodcastAssistant.mkInit = Except.ok () :=
  (claim_C10_cleanup_noop PodcastAssistant.mkInit Reachable.mkInit).2

/-- C4 fails as stated: topic extraction works on the lowercased line, so
for `"which episode is about Cooking"` the topic actually searched is
`"cooking"`, not the remainder `"Cooking"` left after the phrase and the
leading `"is about "`. -/
theorem claim_C4_which_episode_counterexample :
    (process_command oracle0 sample_state_with_feed
        (str "which episode is about Cooking")).2.1 =
      (find_episodes_by_topic oracle0 sample_state_with_feed (str "cooking")).2 ∧
    (process_command oracle0 sample_state_with_feed
        (str "which episode is about Cooking")).2.1 ≠
      (find_episodes_by_topic oracle0 sample_state_with_feed (str "Cooking")).2 := by
  exact ⟨by decide, by decide⟩

/-- C4 (amended): for every line beginning (case-insensitively) with
`"which episode"` or `"which eposide"`, the topic is computed from the
lowercased line by deleting every occurrence of the two phrases, stripping,
then dropping a leading `"is about "` and then a leading `"about "`
(`which_topic`); a nonempty topic routes to the topic-search path and an
empty one prints the please-specify message with no agent call; for
`"which episode is about cooking"` the topic is `"cooking"`. -/
theorem claim_C4_which_episode_amended :
    (∀ (o : Oracle) (s : PodcastAssistant) (c : Str),
      (pyStartsWith (pyLower c) (str "which episode") = true ∨
       pyStartsWith (pyLower c) (str "which eposide") = true) →
      ((which_topic c).isEmpty = false →
        process_command o s c =
          ((find_episodes_by_topic o s (which_topic c)).1,
           (find_episodes_by_topic o s (which_topic c)).2, true)) ∧
      ((which_topic c).isEmpty = true →
        process_command o s c =
          (s, [Event.print (str "Please specify a topic to search for.")], true))) ∧
    which_topic (str "which episode is about cooking") = str "cooking" := by
  refine ⟨?_, by decide⟩
  intro o s c h
  obtain ⟨e1, e2, e3, e4, e5⟩ := which_episode_conditions h
  have h67 : (pyStartsWith (pyLower c) (str "which episode") ||
      pyStartsWith (pyLower c) (str "which eposide")) = true := by
    obtain h | h := h <;> simp [h]
  constructor
  · intro hne
    simp [process_command, e1, e2, e3, h67, if_neg e4, if_neg e5, hne]
  · intro he
    simp [process_command, e1, e2, e3, h67, if_neg e4, if_neg e5, he]

theorem claim_C4_which_episode_amended_witness :
    process_command oracle0 sample_state_with_feed (str "which episode is about cooking") =
      ((find_episodes_by_topic oracle0 sample_state_with_feed (str "cooking")).1,
       (find_episodes_by_topic oracle0 sample_state_with_feed (str "cooking")).2, true) ∧
    process_command oracle0 sample_state_with_feed (str "which episode") =
      (sample_state_with_feed,
       [Event.print (str "Please specify a topic to search for.")], true) := by
  constructor
  · have h := (claim_C4_which_episode_amended.1 oracle0 sample_state_with_feed
      (str "which episode is about cooking") (Or.inl (by decide))).1 (by decide)
    have e : which_topic (str "which episode is about cooking") = str "cooking" := by decide
    rw [e] at h
    exact h
  · exact (claim_C4_which_episode_amended.1 oracle0 sample_state_with_feed
      (str "which episode") (Or.inl (by decide))).2 (by decide)

set_option maxRecDepth 3000 in
/-- C7 fails as stated: a `feed` command whose URL strips to the empty
string still completes a fetch (here also extracting the title "XYZQ"),
but the rebuilt agent's instructions are the bare base instructions, which
do not contain the extracted podcast title. -/
theorem claim_C7_instructions_counterexample :
    (process_command oracleTitle PodcastAssistant.mkInit (str "feed ")).1.podcast_title =
        some (str "XYZQ") ∧
    ¬∃ a b, (process_command oracleTitle PodcastAssistant.mkInit
        (str "feed ")).1.agent_instructions = a ++ str "XYZQ" ++ b := by
  constructor
  · decide
  · rintro ⟨a, b, hab⟩
    have h1 : (process_command oracleTitle PodcastAssistant.mkInit
        (str "feed ")).1.agent_instructions = base_instructions := by rfl
    rw [h1] at hab
    have h2 : hasInfixB (str "XYZQ") base_instructions = true := by
      rw [hab]
      exact hasInfixB_append _ _ _ (by decide)
    have h3 : hasInfixB (str "XYZQ") base_instructions = false := by decide
    exact Bool.noConfusion (h2.symm.trans h3)

/-- C7 (amended): after a feed fetch with a nonempty URL the rebuilt
agent's instructions contain the URL, and also the podcast title whenever
a nonempty one is stored; a fetch with an empty URL resets the
instructions to the base instructions; no command other than `feed `
changes the instructions; and in every reachable state a set feed URL
appears in the current instructions (trivially when it is empty). -/
theorem claim_C7_instructions_amended :
    (∀ (o : Oracle) (s : PodcastAssistant) (u : Str), u.isEmpty = false →
      (∃ a b, (fetch_feed o s u).1.agent_instructions = a ++ u ++ b) ∧
      (∀ t, (fetch_feed o s u).1.podcast_title = some t → t.isEmpty = false →
        ∃ a b, (fetch_feed o s u).1.agent_instructions = a ++ t ++ b)) ∧
    (∀ (o : Oracle) (s : PodcastAssistant) (u : Str), u.isEmpty = true →
      (fetch_feed o s u).1.agent_instructions = base_instructions) ∧
    (∀ (o : Oracle) (s : PodcastAssistant) (c : Str),
      pyStartsWith (pyLower c) (str "feed ") = false →
      (process_command o s c).1.agent_instructions = s.agent_instructions) ∧
    (∀ s, Reachable s → ∀ u, s.feed_url = some u →
      ∃ a b, s.agent_instructions = a ++ u ++ b) := by
  refine ⟨?_, ?_, ?_, ?_⟩
  · intro o s u hu
    constructor
    · rw [fetch_feed_instructions]
      exact create_agent_contains_feed _ _
    · intro t htp htne
      rw [fetch_feed_instructions, htp]
      exact create_agent_contains_title t u htne hu
  · intro o s u hu
    rw [fetch_feed_instructions]
    unfold create_agent_instructions
    simp [truthy, hu]
  · intro o s c h
    rw [process_command_fst]
    simp [h]
  · exact fun s h => (reachable_props s h).2

theorem claim_C7_instructions_amended_witness :
    (∃ a b, (fetch_feed oracle0 PodcastAssistant.mkInit
        (str "https://x/rss")).1.agent_instructions = a ++ str "https://x/rss" ++ b) ∧
    (∃ a b, (process_command oracle0 PodcastAssistant.mkInit
        (str "feed x")).1.agent_instructions = a ++ str "x" ++ b) := by
  constructor
  · exact (claim_C7_instructions_amended.1 oracle0 PodcastAssistant.mkInit
      (str "https://x/rss") (by decide)).1
  · exact claim_C7_instructions_amended.2.2.2 _
      (Reachable.fromStep oracle0 PodcastAssistant.mkInit (str "feed x") Reachable.mkInit)
      (str "x") (by decide)

/-- C8 fails as stated: when the first line containing `"Title:"` contains
the marker twice, the code stores the segment between the two markers (the
Python `split("Title:")[1]`), not all the text after the first marker:
for response `"Title: A Title: B"` it stores `"A"`, not `"A Title: B"`. -/
theorem claim_C8_title_extraction_counterexample :
    (fetch_feed oracleTwoTitles PodcastAssistant.mkInit (str "u")).1.podcast_title =
        some (str "A") ∧
    (fetch_feed oracleTwoTitles PodcastAssistant.mkInit (str "u")).1.podcast_title ≠
        some (str "A Title: B") := by
  exact ⟨by decide, by decide⟩

/-- C8 (amended): title extraction during a feed fetch is best-effort: if
no line of the response contains `"Title:"` the stored title is unchanged;
if some line does, the stored title becomes the segment of the first such
line between the marker and its next occurrence, stripped; in every case
the fetch completes, storing the feed URL and rebuilding the agent's
instructions from the current title and the new URL. -/
theorem claim_C8_title_extraction_amended :
    ∀ (o : Oracle) (s : PodcastAssistant) (u : Str),
      (fetch_feed o s u).1.feed_url = some u ∧
      (fetch_feed o s u).1.agent_instructions =
        create_agent_instructions (fetch_feed o s u).1.podcast_title (some u) ∧
      (hasInfixB titleMarker (o (fetch_input u)) = false →
        (fetch_feed o s u).1.podcast_title = s.podcast_title) ∧
      (hasInfixB titleMarker (o (fetch_input u)) = true →
        ∀ line rest,
          ((o (fetch_input u)).splitOn '\n').filter
              (fun l => hasInfixB titleMarker l) = line :: rest →
          (fetch_feed o s u).1.podcast_title =
            match pySplitSecond titleMarker line with
            | some t => some (pyStrip t)
            | none => s.podcast_title) := by
  intro o s u
  refine ⟨fetch_feed_feed_url o s u, fetch_feed_instructions o s u, ?_, ?_⟩
  · intro hni
    unfold fetch_feed applyTitle extractTitle
    simp [hni]
  · intro hin line rest hfil
    unfold fetch_feed applyTitle extractTitle
    simp only [hin, if_true, hfil]
    cases hsp : pySplitSecond titleMarker line with
    | some t => simp [hsp]
    | none => simp [hsp]

theorem claim_C8_title_extraction_amended_witness :
    (fetch_feed oracleTitle PodcastAssistant.mkInit (str "u")).1.feed_url =
        some (str "u") ∧
    (fetch_feed oracleTitle PodcastAssistant.mkInit (str "u")).1.podcast_title =
        some (str "XYZQ") := by
  refine ⟨(claim_C8_title_extraction_amended oracleTitle PodcastAssistant.mkInit
    (str "u")).1, ?_⟩
  have h := (claim_C8_title_extraction_amended oracleTitle PodcastAssistant.mkInit
    (str "u")).2.2.2 (by decide) (str "Title: XYZQ") [] (by decide)
  rw [h]
  decide

end Podcast
